import Mathlib

/-!
Shallow embedding of the real-time data-freshness subsystem of the
ipnet-mesh website: the tiered node cache (`src/app/api_client.py`), the
broker link (`src/app/mqtt_client.py`) and the push-channel command
handlers (`src/app/__init__.py`).

Time is modelled in whole minutes as `Nat` (the code only ever adds
`timedelta(minutes=…)` to `datetime.utcnow()`).  External effects
(the HTTP response, the state of the cache file on disk, whether a disk
write succeeds, the broker's synchronous return code) are passed in as
explicit parameters, and the functions return the values the Python
functions return together with the updated state and a record of the
side effects they perform.
-/

namespace IpnetWebsite

/-- Python truthiness of an optional string: `None` and `''` are falsy,
every other string is truthy.  Used to model guards such as
`if not api_url` and `if not node_id`. -/
def py_truthy : Option String → Bool
  | none => false
  | some s => !(s == "")

/-- Python `str.strip()`: the string with leading and trailing
whitespace removed, modelled over the string's character list. -/
def py_strip (s : String) : String :=
  ⟨((s.data.dropWhile Char.isWhitespace).reverse.dropWhile Char.isWhitespace).reverse⟩

/-! ## Node data model (`transform_api_node`, `api_client.py` lines 31-68) -/

/-- The `location` sub-dictionary of an upstream node's `tags`
(`tags.get('location', {})`). -/
structure LocTag where
  latitude : Option Int
  longitude : Option Int
deriving Repr, DecidableEq

/-- The `tags` dictionary of an upstream API node.  Each key read by
`transform_api_node` is a field (`none` = key absent); `other_keys`
records whether the dictionary holds any further keys, so that the
Python truthiness test `if not tags` can be modelled exactly. -/
structure Tags where
  node_id : Option String
  friendly_name : Option String
  member_id : Option String
  area : Option String
  location : Option LocTag
  location_description : Option String
  hardware : Option String
  antenna : Option String
  elevation : Option Int
  show_on_map : Option Bool
  is_public : Option Bool
  is_online : Option Bool
  is_testing : Option Bool
  mesh_role : Option String
  other_keys : Bool
deriving Repr, DecidableEq

/-- The empty `tags` dictionary (the `{}` default of
`api_node.get('tags', {})`). -/
def Tags.empty : Tags :=
  ⟨none, none, none, none, none, none, none, none, none, none, none, none, none, none, false⟩

/-- Python truthiness of the `tags` dictionary: truthy iff it holds at
least one key. -/
def Tags.truthy (t : Tags) : Bool :=
  t.node_id.isSome || t.friendly_name.isSome || t.member_id.isSome || t.area.isSome ||
  t.location.isSome || t.location_description.isSome || t.hardware.isSome ||
  t.antenna.isSome || t.elevation.isSome || t.show_on_map.isSome || t.is_public.isSome ||
  t.is_online.isSome || t.is_testing.isSome || t.mesh_role.isSome || t.other_keys

/-- A raw node record of the upstream API response (the fields
`transform_api_node` reads). -/
structure ApiNode where
  name : Option String
  public_key : Option String
  last_seen : Option String
  first_seen : Option String
  tags : Option Tags
deriving Repr, DecidableEq

/-- The internal `location` object built by `transform_api_node`. -/
structure NodeLocation where
  lat : Option Int
  lng : Option Int
  description : String
deriving Repr, DecidableEq

/-- An internal node record, the output format of `transform_api_node`
(`api_client.py` lines 46-68). -/
structure Node where
  id : String
  publicKey : String
  name : String
  memberId : String
  area : String
  location : NodeLocation
  hardware : String
  antenna : String
  elevation : Int
  showOnMap : Bool
  isPublic : Bool
  isOnline : Bool
  isTesting : Bool
  meshRole : String
  lastSeen : Option String
  firstSeen : Option String
  channels : List String
deriving Repr, DecidableEq

/-- `transform_api_node` (`api_client.py` lines 31-68): nodes whose
`tags` dictionary is empty, or whose `tags.node_id or name` is falsy,
are dropped (`none`); otherwise the record is rebuilt in the internal
format with the documented defaults. -/
def transform_api_node (api_node : ApiNode) : Option Node :=
  let tags := api_node.tags.getD Tags.empty
  if !tags.truthy then none
  else
    let nid : Option String := if py_truthy tags.node_id then tags.node_id else api_node.name
    if !py_truthy nid then none
    else
      let node_id := nid.getD ""
      let loc := tags.location.getD ⟨none, none⟩
      some
        { id := node_id
          publicKey := api_node.public_key.getD ""
          name :=
            if py_truthy tags.friendly_name then tags.friendly_name.getD ""
            else if py_truthy api_node.name then api_node.name.getD ""
            else node_id
          memberId := tags.member_id.getD ""
          area := tags.area.getD ""
          location := ⟨loc.latitude, loc.longitude, tags.location_description.getD ""⟩
          hardware := tags.hardware.getD "Unknown"
          antenna := tags.antenna.getD ""
          elevation := tags.elevation.getD 0
          showOnMap := tags.show_on_map.getD false
          isPublic := tags.is_public.getD false
          isOnline := tags.is_online.getD false
          isTesting := tags.is_testing.getD false
          meshRole := tags.mesh_role.getD "unknown"
          lastSeen := api_node.last_seen
          firstSeen := api_node.first_seen
          channels := [] }

/-! ## Upstream fetch (`fetch_nodes_from_api`, `api_client.py` lines 71-129) -/

/-- The parsed JSON body of a successful HTTP response: whether the
object holds an `error` key (`if 'error' in data`), and the value of
its `nodes` key (`data.get('nodes', [])`; `none` = key absent). -/
structure ApiBody where
  has_error : Bool
  nodes : Option (List ApiNode)
deriving Repr, DecidableEq

/-- The outcome of the `requests.get` call: either a
`RequestException` (`exn`) or a response with a status code, a raw body
text, and the body's JSON parse result (`none` = `JSONDecodeError`). -/
inductive HttpResult where
  | exn
  | resp (status_code : Nat) (text : String) (json : Option ApiBody)
deriving Repr, DecidableEq

/-- `fetch_nodes_from_api` (`api_client.py` lines 71-129).  Returns
`none` when `API_URL` is unset or empty, on a transport exception, a
non-200 status, an empty or whitespace-only body, a JSON parse failure,
or an `error` key in the body; otherwise returns the upstream records
individually filtered through `transform_api_node`. -/
def fetch_nodes_from_api (api_url : Option String) (http : HttpResult) :
    Option (List Node) :=
  if !py_truthy api_url then none
  else
    match http with
    | .exn => none
    | .resp status_code text json =>
      if status_code ≠ 200 then none
      else if text == "" || py_strip text == "" then none
      else
        match json with
        | none => none
        | some body =>
          if body.has_error then none
          else some ((body.nodes.getD []).filterMap transform_api_node)

/-! ## Tiered cache (`api_client.py` lines 12-201) -/

/-- `CACHE_TTL_MINUTES` (`api_client.py` line 15). -/
def CACHE_TTL_MINUTES : Nat := 5

/-- The inline `timedelta(minutes=1)` used for the disk-fallback entry
(`api_client.py` line 196): the degraded TTL of the spec. -/
def DEGRADED_TTL_MINUTES : Nat := 1

/-- The module-level `_cache` dictionary (`api_client.py` lines 17-21):
`nodes`, `last_updated` and `expires_at` (both `None` initially). -/
structure Cache where
  nodes : List Node
  last_updated : Option Nat
  expires_at : Option Nat
deriving Repr, DecidableEq

/-- The initial `_cache` value (`api_client.py` lines 17-21). -/
def Cache.initial : Cache := ⟨[], none, none⟩

/-- The state of the cache file on disk: missing or unreadable
(`IOError`), unparsable (`JSONDecodeError`), or a well-formed JSON
document with an optional `nodes` key. -/
inductive DiskState where
  | absent
  | malformed
  | file (nodes : Option (List Node))
deriving Repr, DecidableEq

/-- `load_cache` (`api_client.py` lines 146-156): an `IOError` or
`JSONDecodeError` yields `[]`; a well-formed file yields
`data.get('nodes', [])`. -/
def load_cache : DiskState → List Node
  | .absent => []
  | .malformed => []
  | .file ns => ns.getD []

/-- `save_cache` (`api_client.py` lines 132-143): writes the nodes to
the cache file; an `IOError` (modelled by `write_ok = false`) is caught
and logged, leaving the file as it was, and is not propagated. -/
def save_cache (nodes : List Node) (disk : DiskState) (write_ok : Bool) : DiskState :=
  if write_ok then .file (some nodes) else disk

/-- The memory-cache validity test of `get_nodes` (`api_client.py`
line 172): `_cache['expires_at'] and now < _cache['expires_at'] and
_cache['nodes']` (a `datetime` is always truthy, a list is truthy iff
non-empty). -/
def mem_cache_valid (now : Nat) (c : Cache) : Bool :=
  match c.expires_at with
  | none => false
  | some e => decide (now < e) && !c.nodes.isEmpty

/-- The outcome of one `get_nodes` call: the returned list, the updated
in-memory `_cache`, the updated disk file, and which effects the call
performed (whether `fetch_nodes_from_api` was invoked, whether the disk
file was read, whether a disk write was attempted). -/
structure GetNodesResult where
  ret : List Node
  cache : Cache
  disk : DiskState
  fetch_called : Bool
  disk_read : Bool
  disk_write_attempted : Bool
deriving Repr, DecidableEq

/-- `get_nodes` (`api_client.py` lines 159-201).  A valid memory entry
is returned with no I/O.  Otherwise `fetch_nodes_from_api` is called:
a result that is not `None` and non-empty is installed as
`{nodes, last_updated := now, expires_at := now + CACHE_TTL_MINUTES}`,
persisted via `save_cache`, and returned.  Otherwise (`None` or empty)
the disk file is loaded: a non-empty load is installed with
`expires_at := now + DEGRADED_TTL_MINUTES` (`last_updated` is NOT
touched by this branch, mirroring lines 195-196) and returned; an
empty load returns `[]` leaving `_cache` untouched. -/
def get_nodes (now : Nat) (c : Cache) (api_url : Option String) (http : HttpResult)
    (disk : DiskState) (write_ok : Bool) : GetNodesResult :=
  if mem_cache_valid now c then
    ⟨c.nodes, c, disk, false, false, false⟩
  else
    match fetch_nodes_from_api api_url http with
    | some ns =>
      if 0 < ns.length then
        ⟨ns, ⟨ns, some now, some (now + CACHE_TTL_MINUTES)⟩,
          save_cache ns disk write_ok, true, false, true⟩
      else
        match load_cache disk with
        | [] => ⟨[], c, disk, true, true, false⟩
        | n :: rest =>
          ⟨n :: rest, ⟨n :: rest, c.last_updated, some (now + DEGRADED_TTL_MINUTES)⟩,
            disk, true, true, false⟩
    | none =>
      match load_cache disk with
      | [] => ⟨[], c, disk, true, true, false⟩
      | n :: rest =>
        ⟨n :: rest, ⟨n :: rest, c.last_updated, some (now + DEGRADED_TTL_MINUTES)⟩,
          disk, true, true, false⟩

/-! ## Broker link (`mqtt_client.py`) -/

/-- The mutable state of an `MQTTClient` instance that the guarded
operations read: whether `self.client` is non-`None`, whether
`self.socketio` is non-`None` (the push-channel relay), and the
`self.is_connected` flag. -/
structure MQTTClient where
  has_client : Bool
  has_relay : Bool
  is_connected : Bool
deriving Repr, DecidableEq

/-- `self.default_topics` (`mqtt_client.py` lines 38-43). -/
def default_topics : List String :=
  ["ipnet/+/status", "ipnet/+/metrics", "ipnet/network/topology", "ipnet/alerts/+"]

/-- An operation submitted to the paho broker client. -/
inductive BrokerOp where
  | sub (topic : String) (qos : Nat)
  | unsub (topic : String)
  | pub (topic : String) (payload : String) (qos : Nat) (retain : Bool)
deriving Repr, DecidableEq

/-- A push-channel event emitted through SocketIO. -/
inductive Emit where
  | mqtt_status (connected : Bool) (error : Option String)
  | mqtt_subscribe_result (topic : String) (success : Bool)
  | mqtt_unsubscribe_result (topic : String) (success : Bool)
  | mqtt_publish_result (topic : String) (success : Bool)
deriving Repr, DecidableEq

/-- How an emission reaches the sessions: `socketio.emit` with no room
argument is a broadcast to every connected session; a unicast to one
session would need an explicit room. -/
inductive Emission where
  | broadcast (e : Emit)
  | unicast (session_id : Nat) (e : Emit)
deriving Repr, DecidableEq

/-- The broker's synchronous answer to a submitted operation: `none`
models an exception raised by the paho call (caught by the `except`
block), `some rc` the returned code (`MQTT_ERR_SUCCESS = 0`). -/
def MQTT_ERR_SUCCESS : Nat := 0

/-- `MQTTClient.publish` (`mqtt_client.py` lines 150-166): returns
`false` with no broker call when `self.client` is `None` or
`is_connected` is false; otherwise submits the publish and returns true
iff the broker's return code is `MQTT_ERR_SUCCESS` (an exception is
caught and yields false). -/
def MQTTClient.publish (s : MQTTClient) (topic payload : String) (qos : Nat)
    (retain : Bool) (broker_rc : Option Nat) : Bool × List BrokerOp :=
  if !s.has_client || !s.is_connected then (false, [])
  else
    match broker_rc with
    | some rc => (rc == MQTT_ERR_SUCCESS, [.pub topic payload qos retain])
    | none => (false, [.pub topic payload qos retain])

/-- `MQTTClient.subscribe` (`mqtt_client.py` lines 168-184): same
not-connected guard; otherwise submits the subscribe and returns true
iff the broker's return code is `MQTT_ERR_SUCCESS`. -/
def MQTTClient.subscribe (s : MQTTClient) (topic : String) (qos : Nat)
    (broker_rc : Option Nat) : Bool × List BrokerOp :=
  if !s.has_client || !s.is_connected then (false, [])
  else
    match broker_rc with
    | some rc => (rc == MQTT_ERR_SUCCESS, [.sub topic qos])
    | none => (false, [.sub topic qos])

/-- `MQTTClient.unsubscribe` (`mqtt_client.py` lines 186-202): same
not-connected guard; otherwise submits the unsubscribe and returns true
iff the broker's return code is `MQTT_ERR_SUCCESS`. -/
def MQTTClient.unsubscribe (s : MQTTClient) (topic : String)
    (broker_rc : Option Nat) : Bool × List BrokerOp :=
  if !s.has_client || !s.is_connected then (false, [])
  else
    match broker_rc with
    | some rc => (rc == MQTT_ERR_SUCCESS, [.unsub topic])
    | none => (false, [.unsub topic])

/-- The effects of one connect-callback invocation: the updated client
state, the operations submitted to the broker, and the push-channel
events emitted. -/
structure ConnectEffects where
  state : MQTTClient
  broker_ops : List BrokerOp
  emits : List Emit
deriving Repr, DecidableEq

/-- `MQTTClient._on_connect` (`mqtt_client.py` lines 45-63): on
`rc = 0` it sets `is_connected`, subscribes each default topic directly
on the paho client (qos 0), and, when a relay is attached, emits
`mqtt_status {connected: true}`; on `rc ≠ 0` it clears `is_connected`
and emits `mqtt_status {connected: false, error}` instead, with no
subscriptions. -/
def MQTTClient._on_connect (s : MQTTClient) (rc : Nat) : ConnectEffects :=
  if rc = 0 then
    ⟨{ s with is_connected := true },
      default_topics.map (fun t => .sub t 0),
      if s.has_relay then [.mqtt_status true none] else []⟩
  else
    ⟨{ s with is_connected := false },
      [],
      if s.has_relay then
        [.mqtt_status false (some ("Connection failed: " ++ toString rc))]
      else []⟩

/-! ## Push-channel command handlers (`__init__.py` lines 121-147) -/

/-- `handle_mqtt_subscribe` (`__init__.py` lines 121-127): reads
`data.get('topic')`; only when the topic is truthy, the global
`mqtt_client` exists and `mqtt_client.is_connected` is true does it
call `subscribe` and emit `mqtt_subscribe_result {topic, success}` —
via `socketio.emit`, i.e. a broadcast to every session.  In every other
case nothing is emitted and no broker call is made. -/
def handle_mqtt_subscribe (data_topic : Option String) (mc : Option MQTTClient)
    (broker_rc : Option Nat) : List Emission × List BrokerOp :=
  match data_topic, mc with
  | some t, some c =>
    if !(t == "") && c.is_connected then
      let res := c.subscribe t 0 broker_rc
      ([.broadcast (.mqtt_subscribe_result t res.1)], res.2)
    else ([], [])
  | _, _ => ([], [])

/-! ## Concrete sample values used by counterexamples and witnesses -/

/-- A concrete internal node record: what `transform_api_node` produces
for an upstream node whose tags carry only `node_id = "rep01"`. -/
def sampleNode : Node :=
  { id := "rep01", publicKey := "", name := "rep01", memberId := "", area := "",
    location := ⟨none, none, ""⟩, hardware := "Unknown", antenna := "", elevation := 0,
    showOnMap := false, isPublic := false, isOnline := false, isTesting := false,
    meshRole := "unknown", lastSeen := none, firstSeen := none, channels := [] }

/-- An upstream node whose tags carry only `node_id = "rep01"`; it
survives the transform and becomes `sampleNode`. -/
def goodApiNode : ApiNode :=
  { name := none, public_key := none, last_seen := none, first_seen := none,
    tags := some { Tags.empty with node_id := some "rep01" } }

/-- An upstream node with a non-empty tags dictionary but no `node_id`
tag and no `name`: it is dropped by `transform_api_node`. -/
def orphanApiNode : ApiNode :=
  { name := none, public_key := none, last_seen := none, first_seen := none,
    tags := some { Tags.empty with hardware := some "tbeam" } }

/-! ## Helper lemmas about the read path of `get_nodes` -/

/-- A valid memory entry is returned as-is with no effects. -/
theorem get_nodes_hit (now : Nat) (c : Cache) (api_url : Option String) (http : HttpResult)
    (disk : DiskState) (w : Bool) (hmem : mem_cache_valid now c = true) :
    get_nodes now c api_url http disk w = ⟨c.nodes, c, disk, false, false, false⟩ := by
  simp [get_nodes, hmem]

/-- A memory entry that passes the validity test has a non-empty
`nodes` list. -/
theorem mem_cache_valid_nodes_ne (now : Nat) (c : Cache)
    (h : mem_cache_valid now c = true) : c.nodes ≠ [] := by
  unfold mem_cache_valid at h
  split at h
  · exact absurd h (by simp)
  · intro hnil
    rw [hnil] at h
    simp at h

/-- A non-`None`, non-empty fetch result is installed with the normal
TTL, persisted, and returned. -/
theorem get_nodes_fresh (now : Nat) (c : Cache) (api_url : Option String) (http : HttpResult)
    (disk : DiskState) (w : Bool) (ns : List Node)
    (hmem : mem_cache_valid now c = false)
    (hfetch : fetch_nodes_from_api api_url http = some ns) (hns : ns ≠ []) :
    get_nodes now c api_url http disk w =
      ⟨ns, ⟨ns, some now, some (now + CACHE_TTL_MINUTES)⟩,
        save_cache ns disk w, true, false, true⟩ := by
  have hlen : 0 < ns.length := List.length_pos.mpr hns
  simp [get_nodes, hmem, hfetch, hlen]

/-- A `None` or empty fetch result with a non-empty disk file installs
the disk records with the degraded TTL, leaving `last_updated` as it
was, and returns them. -/
theorem get_nodes_degraded (now : Nat) (c : Cache) (api_url : Option String)
    (http : HttpResult) (disk : DiskState) (w : Bool)
    (hmem : mem_cache_valid now c = false)
    (hfetch : fetch_nodes_from_api api_url http = none ∨
      fetch_nodes_from_api api_url http = some [])
    (hd : load_cache disk ≠ []) :
    get_nodes now c api_url http disk w =
      ⟨load_cache disk,
        ⟨load_cache disk, c.last_updated, some (now + DEGRADED_TTL_MINUTES)⟩,
        disk, true, true, false⟩ := by
  cases hld : load_cache disk with
  | nil => exact absurd hld hd
  | cons n rest =>
    rcases hfetch with hf | hf <;> simp [get_nodes, hmem, hf, hld]

/-- A `None` or empty fetch result with an empty disk load returns `[]`
and leaves the memory entry untouched. -/
theorem get_nodes_nothing (now : Nat) (c : Cache) (api_url : Option String)
    (http : HttpResult) (disk : DiskState) (w : Bool)
    (hmem : mem_cache_valid now c = false)
    (hfetch : fetch_nodes_from_api api_url http = none ∨
      fetch_nodes_from_api api_url http = some [])
    (hd : load_cache disk = []) :
    get_nodes now c api_url http disk w = ⟨[], c, disk, true, true, false⟩ := by
  rcases hfetch with hf | hf <;> simp [get_nodes, hmem, hf, hd]

/-! ## Claim theorems -/

/-- C1 counterexample: an upstream fetch that succeeds at the
transport/JSON level but is empty after filtering (the single record
lacks an identity field) does NOT count as a successful fetch in
`get_nodes`: with a one-record disk snapshot present, the read falls
through to the disk fallback, returns the snapshot record (not the
empty fetched collection), reads the disk, installs the degraded TTL
rather than `now + normalTTL`, and persists nothing. -/
theorem C1_counterexample :
    fetch_nodes_from_api (some "http://api.example")
        (HttpResult.resp 200 "x" (some ⟨false, some [orphanApiNode]⟩)) = some [] ∧
      get_nodes 0 Cache.initial (some "http://api.example")
        (HttpResult.resp 200 "x" (some ⟨false, some [orphanApiNode]⟩))
        (DiskState.file (some [sampleNode])) true =
      ⟨[sampleNode], ⟨[sampleNode], none, some DEGRADED_TTL_MINUTES⟩,
        DiskState.file (some [sampleNode]), true, true, false⟩ :=
  ⟨rfl, rfl⟩

/-- C1 (amended): a fetch that succeeds but whose transformed
collection is empty is treated exactly like a failed fetch — the read
falls through to the disk-snapshot fallback with an identical outcome;
only a successful fetch with at least one record replaces the
in-memory entry with `{items, fetchedAt := now, expiresAt := now +
normalTTL}`, persists to disk, and returns the items. -/
theorem C1_empty_fetch_falls_through (now : Nat) (c : Cache) (api_url url2 : Option String)
    (http http2 : HttpResult) (disk : DiskState) (w : Bool) (ns : List Node)
    (hmem : mem_cache_valid now c = false)
    (hfetch : fetch_nodes_from_api api_url http = some ns) :
    (ns = [] → fetch_nodes_from_api url2 http2 = none →
      get_nodes now c api_url http disk w = get_nodes now c url2 http2 disk w) ∧
    (ns ≠ [] → get_nodes now c api_url http disk w =
      ⟨ns, ⟨ns, some now, some (now + CACHE_TTL_MINUTES)⟩,
        save_cache ns disk w, true, false, true⟩) := by
  constructor
  · intro hnil hfail
    subst hnil
    cases hld : load_cache disk with
    | nil =>
      rw [get_nodes_nothing now c api_url http disk w hmem (Or.inr hfetch) hld,
        get_nodes_nothing now c url2 http2 disk w hmem (Or.inl hfail) hld]
    | cons n rest =>
      rw [get_nodes_degraded now c api_url http disk w hmem (Or.inr hfetch) (by simp [hld]),
        get_nodes_degraded now c url2 http2 disk w hmem (Or.inl hfail) (by simp [hld])]
  · intro hns
    exact get_nodes_fresh now c api_url http disk w ns hmem hfetch hns

/-- C1 witness: instantiates the amended theorem both with an
empty-after-filtering fetch (falls back to the one-record snapshot,
same as a failed fetch) and with a one-record fetch (fresh install). -/
theorem C1_empty_fetch_falls_through_witness :
    (mem_cache_valid 0 Cache.initial = false ∧
      fetch_nodes_from_api (some "http://api.example")
        (HttpResult.resp 200 "x" (some ⟨false, some [orphanApiNode]⟩)) = some [] ∧
      get_nodes 0 Cache.initial (some "http://api.example")
          (HttpResult.resp 200 "x" (some ⟨false, some [orphanApiNode]⟩))
          (DiskState.file (some [sampleNode])) true =
        get_nodes 0 Cache.initial none HttpResult.exn
          (DiskState.file (some [sampleNode])) true) ∧
    (fetch_nodes_from_api (some "http://api.example")
        (HttpResult.resp 200 "x" (some ⟨false, some [goodApiNode]⟩)) = some [sampleNode] ∧
      get_nodes 0 Cache.initial (some "http://api.example")
          (HttpResult.resp 200 "x" (some ⟨false, some [goodApiNode]⟩))
          DiskState.absent true =
        ⟨[sampleNode], ⟨[sampleNode], some 0, some (0 + CACHE_TTL_MINUTES)⟩,
          save_cache [sampleNode] DiskState.absent true, true, false, true⟩) :=
  ⟨⟨rfl, rfl,
      (C1_empty_fetch_falls_through 0 Cache.initial (some "http://api.example") none
        (HttpResult.resp 200 "x" (some ⟨false, some [orphanApiNode]⟩)) HttpResult.exn
        (DiskState.file (some [sampleNode])) true [] rfl rfl).1 rfl rfl⟩,
    ⟨rfl,
      (C1_empty_fetch_falls_through 0 Cache.initial (some "http://api.example") none
        (HttpResult.resp 200 "x" (some ⟨false, some [goodApiNode]⟩)) HttpResult.exn
        DiskState.absent true [sampleNode] rfl rfl).2 (by decide)⟩⟩

/-- C2 counterexample: an `mqtt_subscribe` command with topic `"x"`
issued while the broker link is disconnected produces NO
`mqtt_subscribe_result` at all (and no broker call): the handler's
guard `if topic and mqtt_client and mqtt_client.is_connected` skips the
acknowledgement entirely, so the requesting session receives nothing,
contrary to the claimed `{topic: "x", success: false}` acknowledgement. -/
theorem C2_counterexample :
    handle_mqtt_subscribe (some "x") (some ⟨true, true, false⟩) (some 0) = ([], []) :=
  rfl

/-- C2 (amended): an acknowledgement is emitted only when the topic is
truthy, the client object exists, and the broker link is connected — a
subscribe command while disconnected yields no acknowledgement at all;
when the guard passes, the `mqtt_subscribe_result {topic, success}`
carrying the subscribe call's boolean result is emitted via
`socketio.emit`, i.e. broadcast to every session; no emission of the
handler is ever a unicast to the requesting session. -/
theorem C2_ack_only_when_connected (data_topic : Option String) (mc : Option MQTTClient)
    (broker_rc : Option Nat) (t : String) (c : MQTTClient)
    (ht : data_topic = some t) (hc : mc = some c) :
    (c.is_connected = false →
      handle_mqtt_subscribe data_topic mc broker_rc = ([], [])) ∧
    (t ≠ "" → c.is_connected = true →
      handle_mqtt_subscribe data_topic mc broker_rc =
        ([Emission.broadcast (Emit.mqtt_subscribe_result t (c.subscribe t 0 broker_rc).1)],
          (c.subscribe t 0 broker_rc).2)) ∧
    (∀ sid e, Emission.unicast sid e ∉ (handle_mqtt_subscribe data_topic mc broker_rc).1) := by
  subst ht hc
  refine ⟨?_, ?_, ?_⟩
  · intro hcon
    simp [handle_mqtt_subscribe, hcon]
  · intro htop hcon
    simp [handle_mqtt_subscribe, hcon, htop]
  · intro sid e hmem
    unfold handle_mqtt_subscribe at hmem
    split at hmem
    · split at hmem <;> simp_all
    · simp_all

/-- C2 witness: a disconnected client with topic `"x"` yields no
emission, and a connected client with topic `"x"` and broker code 0
yields a broadcast `mqtt_subscribe_result {x, true}`. -/
theorem C2_ack_only_when_connected_witness :
    (MQTTClient.is_connected ⟨true, true, false⟩ = false ∧
      handle_mqtt_subscribe (some "x") (some ⟨true, true, false⟩) (some 0) = ([], [])) ∧
    (handle_mqtt_subscribe (some "x") (some ⟨true, true, true⟩) (some 0) =
      ([Emission.broadcast (Emit.mqtt_subscribe_result "x"
          (MQTTClient.subscribe ⟨true, true, true⟩ "x" 0 (some 0)).1)],
        (MQTTClient.subscribe ⟨true, true, true⟩ "x" 0 (some 0)).2)) :=
  ⟨⟨rfl,
      (C2_ack_only_when_connected (some "x") (some ⟨true, true, false⟩) (some 0) "x"
        ⟨true, true, false⟩ rfl rfl).1 rfl⟩,
    ((C2_ack_only_when_connected (some "x") (some ⟨true, true, true⟩) (some 0) "x"
        ⟨true, true, true⟩ rfl rfl).2.1 (by decide) rfl)⟩

/-- C3 counterexample: a degraded install does NOT set `fetchedAt` to
the install time.  Starting from the initial cache (`last_updated =
None`), a failed fetch at time 7 over a one-record disk snapshot
installs `expires_at = 8` but leaves `last_updated = None`, so
`expiresAt = fetchedAt + ttl` fails for the installed entry. -/
theorem C3_counterexample :
    (get_nodes 7 Cache.initial none HttpResult.exn
        (DiskState.file (some [sampleNode])) true).cache =
      ⟨[sampleNode], none, some 8⟩ :=
  rfl

/-- C3 (amended): a fresh install satisfies the invariant — it sets
`fetchedAt := now` and `expiresAt := now + normalTTL`; a degraded
install from the disk snapshot sets only `expiresAt := now +
degradedTTL` and leaves `fetchedAt` (`last_updated`) unchanged from the
previous entry, so `expiresAt = fetchedAt + ttl` need not hold for
degraded entries. -/
theorem C3_expiry_invariant (now : Nat) (c : Cache) (api_url : Option String)
    (http : HttpResult) (disk : DiskState) (w : Bool) (ns : List Node)
    (hmem : mem_cache_valid now c = false) :
    (fetch_nodes_from_api api_url http = some ns → ns ≠ [] →
      (get_nodes now c api_url http disk w).cache =
        ⟨ns, some now, some (now + CACHE_TTL_MINUTES)⟩) ∧
    (fetch_nodes_from_api api_url http = none → load_cache disk ≠ [] →
      (get_nodes now c api_url http disk w).cache =
        ⟨load_cache disk, c.last_updated, some (now + DEGRADED_TTL_MINUTES)⟩) := by
  constructor
  · intro hfetch hns
    rw [get_nodes_fresh now c api_url http disk w ns hmem hfetch hns]
  · intro hfetch hd
    rw [get_nodes_degraded now c api_url http disk w hmem (Or.inl hfetch) hd]

/-- C3 witness: the fresh branch at time 3 installs
`{[sampleNode], fetchedAt := 3, expiresAt := 8}`; the degraded branch
at time 3 over a one-record snapshot installs `expiresAt := 4` with
`last_updated` still `None`. -/
theorem C3_expiry_invariant_witness :
    (mem_cache_valid 3 Cache.initial = false ∧
      (get_nodes 3 Cache.initial (some "http://api.example")
          (HttpResult.resp 200 "x" (some ⟨false, some [goodApiNode]⟩))
          DiskState.absent true).cache =
        ⟨[sampleNode], some 3, some (3 + CACHE_TTL_MINUTES)⟩) ∧
    (get_nodes 3 Cache.initial none HttpResult.exn
        (DiskState.file (some [sampleNode])) true).cache =
      ⟨[sampleNode], Cache.initial.last_updated, some (3 + DEGRADED_TTL_MINUTES)⟩ :=
  ⟨⟨rfl,
      (C3_expiry_invariant 3 Cache.initial (some "http://api.example")
        (HttpResult.resp 200 "x" (some ⟨false, some [goodApiNode]⟩))
        DiskState.absent true [sampleNode] rfl).1 rfl (by decide)⟩,
    (C3_expiry_invariant 3 Cache.initial none HttpResult.exn
      (DiskState.file (some [sampleNode])) true [] rfl).2 rfl (by decide)⟩

/-- C4: after a successful non-empty fetch at time `t`, any read at a
time `now < t + normalTTL` (with no intervening install: the second
read starts from the cache the first one installed) returns exactly the
fetched collection from memory, leaves the cache and the disk
untouched, and performs no upstream call, no disk read, and no disk
write — whatever the second read's environment would have answered. -/
theorem C4_fresh_reads_hit_memory (t now : Nat) (c : Cache) (api_url url2 : Option String)
    (http http2 : HttpResult) (disk disk2 : DiskState) (w w2 : Bool) (ns : List Node)
    (hmem : mem_cache_valid t c = false)
    (hfetch : fetch_nodes_from_api api_url http = some ns) (hns : ns ≠ [])
    (hnow : now < t + CACHE_TTL_MINUTES) :
    (get_nodes t c api_url http disk w).ret = ns ∧
    (get_nodes now (get_nodes t c api_url http disk w).cache url2 http2 disk2 w2).ret = ns ∧
    (get_nodes now (get_nodes t c api_url http disk w).cache url2 http2 disk2 w2).cache =
      (get_nodes t c api_url http disk w).cache ∧
    (get_nodes now (get_nodes t c api_url http disk w).cache url2 http2 disk2 w2).disk = disk2 ∧
    (get_nodes now (get_nodes t c api_url http disk w).cache url2 http2 disk2 w2).fetch_called
      = false ∧
    (get_nodes now (get_nodes t c api_url http disk w).cache url2 http2 disk2 w2).disk_read
      = false ∧
    (get_nodes now (get_nodes t c api_url http disk w).cache url2 http2
      disk2 w2).disk_write_attempted = false := by
  rw [get_nodes_fresh t c api_url http disk w ns hmem hfetch hns]
  have hvalid : mem_cache_valid now ⟨ns, some t, some (t + CACHE_TTL_MINUTES)⟩ = true := by
    unfold mem_cache_valid
    cases ns with
    | nil => exact absurd rfl hns
    | cons a l => simp [hnow]
  rw [get_nodes_hit now _ url2 http2 disk2 w2 hvalid]
  exact ⟨rfl, rfl, rfl, rfl, rfl, rfl, rfl⟩

/-- C4 witness: fetch `[sampleNode]` at time 0, read again at time 4
with a failing environment and a different disk: the memory entry is
served with no effects. -/
theorem C4_fresh_reads_hit_memory_witness :
    mem_cache_valid 0 Cache.initial = false ∧
    fetch_nodes_from_api (some "http://api.example")
      (HttpResult.resp 200 "x" (some ⟨false, some [goodApiNode]⟩)) = some [sampleNode] ∧
    [sampleNode] ≠ ([] : List Node) ∧
    4 < 0 + CACHE_TTL_MINUTES ∧
    (get_nodes 0 Cache.initial (some "http://api.example")
        (HttpResult.resp 200 "x" (some ⟨false, some [goodApiNode]⟩))
        DiskState.absent true).ret = [sampleNode] ∧
    (get_nodes 4 (get_nodes 0 Cache.initial (some "http://api.example")
        (HttpResult.resp 200 "x" (some ⟨false, some [goodApiNode]⟩))
        DiskState.absent true).cache none HttpResult.exn DiskState.malformed
        false).ret = [sampleNode] ∧
    (get_nodes 4 (get_nodes 0 Cache.initial (some "http://api.example")
        (HttpResult.resp 200 "x" (some ⟨false, some [goodApiNode]⟩))
        DiskState.absent true).cache none HttpResult.exn DiskState.malformed
        false).fetch_called = false ∧
    (get_nodes 4 (get_nodes 0 Cache.initial (some "http://api.example")
        (HttpResult.resp 200 "x" (some ⟨false, some [goodApiNode]⟩))
        DiskState.absent true).cache none HttpResult.exn DiskState.malformed
        false).disk_read = false := by
  have h := C4_fresh_reads_hit_memory 0 4 Cache.initial (some "http://api.example") none
    (HttpResult.resp 200 "x" (some ⟨false, some [goodApiNode]⟩)) HttpResult.exn
    DiskState.absent DiskState.malformed true false [sampleNode] rfl rfl
    (by decide) (by decide)
  exact ⟨rfl, rfl, by decide, by decide, h.1, h.2.1, h.2.2.2.2.1, h.2.2.2.2.2.1⟩

/-- C5: when the fetch fails and the disk snapshot holds a non-empty
record list, the read returns exactly those records and installs them
in memory with expiry `now + degradedTTL`, which is strictly sooner
than — and different from — `now + normalTTL`. -/
theorem C5_failed_fetch_uses_snapshot (now : Nat) (c : Cache) (api_url : Option String)
    (http : HttpResult) (disk : DiskState) (w : Bool)
    (hmem : mem_cache_valid now c = false)
    (hfetch : fetch_nodes_from_api api_url http = none)
    (hd : load_cache disk ≠ []) :
    (get_nodes now c api_url http disk w).ret = load_cache disk ∧
    (get_nodes now c api_url http disk w).cache.nodes = load_cache disk ∧
    (get_nodes now c api_url http disk w).cache.expires_at =
      some (now + DEGRADED_TTL_MINUTES) ∧
    DEGRADED_TTL_MINUTES < CACHE_TTL_MINUTES ∧
    (get_nodes now c api_url http disk w).cache.expires_at ≠
      some (now + CACHE_TTL_MINUTES) := by
  rw [get_nodes_degraded now c api_url http disk w hmem (Or.inl hfetch) hd]
  refine ⟨rfl, rfl, rfl, by decide, ?_⟩
  simp [DEGRADED_TTL_MINUTES, CACHE_TTL_MINUTES]

/-- C5 witness: a transport exception at time 2 over a one-record
snapshot returns the record and installs expiry 3. -/
theorem C5_failed_fetch_uses_snapshot_witness :
    mem_cache_valid 2 Cache.initial = false ∧
    fetch_nodes_from_api (some "http://api.example") HttpResult.exn = none ∧
    load_cache (DiskState.file (some [sampleNode])) ≠ [] ∧
    (get_nodes 2 Cache.initial (some "http://api.example") HttpResult.exn
        (DiskState.file (some [sampleNode])) true).ret =
      load_cache (DiskState.file (some [sampleNode])) ∧
    (get_nodes 2 Cache.initial (some "http://api.example") HttpResult.exn
        (DiskState.file (some [sampleNode])) true).cache.expires_at =
      some (2 + DEGRADED_TTL_MINUTES) := by
  have h := C5_failed_fetch_uses_snapshot 2 Cache.initial (some "http://api.example")
    HttpResult.exn (DiskState.file (some [sampleNode])) true rfl rfl (by decide)
  exact ⟨rfl, rfl, by decide, h.1, h.2.2.1⟩

/-- C6 counterexample: a fetch that SUCCEEDS at the transport/JSON
level with an empty record list, over an absent disk snapshot, also
leaves the caller with no data — so "upstream fetch fails with an empty
snapshot" is not the only state in which a caller receives no data. -/
theorem C6_counterexample :
    fetch_nodes_from_api (some "http://api.example")
        (HttpResult.resp 200 "y" (some ⟨false, some []⟩)) = some [] ∧
      (get_nodes 0 Cache.initial (some "http://api.example")
          (HttpResult.resp 200 "y" (some ⟨false, some []⟩))
          DiskState.absent true).ret = [] :=
  ⟨rfl, rfl⟩

/-- C6 (amended): the read is a total function (it never raises), and
it returns the empty collection exactly when the memory entry is
invalid, the fetch either fails (`None`) or yields an empty collection,
and the disk snapshot loads no records.  In particular a failed fetch
over an absent, unreadable, malformed or record-less snapshot returns
`[]`. -/
theorem C6_empty_iff_all_sources_empty (now : Nat) (c : Cache) (api_url : Option String)
    (http : HttpResult) (disk : DiskState) (w : Bool) :
    (get_nodes now c api_url http disk w).ret = [] ↔
      (mem_cache_valid now c = false ∧
        (fetch_nodes_from_api api_url http = none ∨
          fetch_nodes_from_api api_url http = some []) ∧
        load_cache disk = []) := by
  constructor
  · intro hret
    cases hmem : mem_cache_valid now c with
    | true =>
      rw [get_nodes_hit now c api_url http disk w hmem] at hret
      exact absurd hret (mem_cache_valid_nodes_ne now c hmem)
    | false =>
      cases hfetch : fetch_nodes_from_api api_url http with
      | some ns =>
        cases hns : ns with
        | nil =>
          subst hns
          cases hld : load_cache disk with
          | nil => exact ⟨rfl, Or.inr rfl, rfl⟩
          | cons n rest =>
            rw [get_nodes_degraded now c api_url http disk w hmem (Or.inr hfetch)
              (by simp [hld])] at hret
            simp [hld] at hret
        | cons a l =>
          subst hns
          rw [get_nodes_fresh now c api_url http disk w (a :: l) hmem hfetch
            (by simp)] at hret
          simp at hret
      | none =>
        cases hld : load_cache disk with
        | nil => exact ⟨rfl, Or.inl rfl, rfl⟩
        | cons n rest =>
          rw [get_nodes_degraded now c api_url http disk w hmem (Or.inl hfetch)
            (by simp [hld])] at hret
          simp [hld] at hret
  · rintro ⟨hmem, hfetch, hld⟩
    rw [get_nodes_nothing now c api_url http disk w hmem hfetch hld]

/-- C7: a successful fetch with records followed by a failed disk write
returns the records and installs the same in-memory entry as a
successful write would; the write failure changes nothing on the read
path (and leaves the disk file as it was). -/
theorem C7_persist_failure_is_invisible (now : Nat) (c : Cache) (api_url : Option String)
    (http : HttpResult) (disk : DiskState) (ns : List Node)
    (hmem : mem_cache_valid now c = false)
    (hfetch : fetch_nodes_from_api api_url http = some ns) (hns : ns ≠ []) :
    (get_nodes now c api_url http disk false).ret = ns ∧
    (get_nodes now c api_url http disk true).ret = ns ∧
    (get_nodes now c api_url http disk false).cache =
      (get_nodes now c api_url http disk true).cache ∧
    (get_nodes now c api_url http disk false).cache =
      ⟨ns, some now, some (now + CACHE_TTL_MINUTES)⟩ ∧
    (get_nodes now c api_url http disk false).disk = disk := by
  rw [get_nodes_fresh now c api_url http disk false ns hmem hfetch hns,
    get_nodes_fresh now c api_url http disk true ns hmem hfetch hns]
  exact ⟨rfl, rfl, rfl, rfl, rfl⟩

/-- C7 witness: fetching `[sampleNode]` over a malformed disk file with
a failing write still returns `[sampleNode]`, installs the normal-TTL
entry, and leaves the file malformed. -/
theorem C7_persist_failure_is_invisible_witness :
    mem_cache_valid 1 Cache.initial = false ∧
    fetch_nodes_from_api (some "http://api.example")
      (HttpResult.resp 200 "x" (some ⟨false, some [goodApiNode]⟩)) = some [sampleNode] ∧
    (get_nodes 1 Cache.initial (some "http://api.example")
        (HttpResult.resp 200 "x" (some ⟨false, some [goodApiNode]⟩))
        DiskState.malformed false).ret = [sampleNode] ∧
    (get_nodes 1 Cache.initial (some "http://api.example")
        (HttpResult.resp 200 "x" (some ⟨false, some [goodApiNode]⟩))
        DiskState.malformed false).cache =
      ⟨[sampleNode], some 1, some (1 + CACHE_TTL_MINUTES)⟩ ∧
    (get_nodes 1 Cache.initial (some "http://api.example")
        (HttpResult.resp 200 "x" (some ⟨false, some [goodApiNode]⟩))
        DiskState.malformed false).disk = DiskState.malformed := by
  have h := C7_persist_failure_is_invisible 1 Cache.initial (some "http://api.example")
    (HttpResult.resp 200 "x" (some ⟨false, some [goodApiNode]⟩)) DiskState.malformed
    [sampleNode] rfl rfl (by decide)
  exact ⟨rfl, rfl, h.1, h.2.2.2.1, h.2.2.2.2⟩

/-- C8: whenever `self.client` is `None` or `is_connected` is false,
`publish`, `subscribe` and `unsubscribe` each return `false` and submit
no operation to the broker, whatever the broker would have answered. -/
theorem C8_guarded_ops_return_false (s : MQTTClient) (topic payload : String) (qos : Nat)
    (retain : Bool) (rc1 rc2 rc3 : Option Nat)
    (h : s.has_client = false ∨ s.is_connected = false) :
    s.publish topic payload qos retain rc1 = (false, []) ∧
    s.subscribe topic qos rc2 = (false, []) ∧
    s.unsubscribe topic rc3 = (false, []) := by
  have hg : (!s.has_client || !s.is_connected) = true := by
    rcases h with h | h <;> simp [h]
  refine ⟨?_, ?_, ?_⟩ <;>
    simp [MQTTClient.publish, MQTTClient.subscribe, MQTTClient.unsubscribe, hg]

/-- C8 witness: a client object that exists but is disconnected returns
`false` with no broker call from all three operations. -/
theorem C8_guarded_ops_return_false_witness :
    MQTTClient.is_connected ⟨true, true, false⟩ = false ∧
    MQTTClient.publish ⟨true, true, false⟩ "t" "p" 1 true (some 0) = (false, []) ∧
    MQTTClient.subscribe ⟨true, true, false⟩ "t" 0 (some 0) = (false, []) ∧
    MQTTClient.unsubscribe ⟨true, true, false⟩ "t" (some 0) = (false, []) := by
  have h := C8_guarded_ops_return_false ⟨true, true, false⟩ "t" "p" 1 true
    (some 0) (some 0) (some 0) (Or.inr rfl)
  exact ⟨rfl, h.1, h.2.1, h.2.2⟩

/-- C9: when the connect callback fires with the success code 0 and a
relay is attached, the state becomes connected, each of the four
configured default topics is subscribed (in order), and the
`mqtt_status {connected: true}` event is emitted; on a non-zero code
the state is not connected, nothing is subscribed, and
`mqtt_status {connected: false, error}` is emitted instead. -/
theorem C9_on_connect_behaviour (s : MQTTClient) (rc : Nat) (hrelay : s.has_relay = true) :
    (rc = 0 →
      s._on_connect rc =
        ⟨{ s with is_connected := true },
          default_topics.map (fun t => BrokerOp.sub t 0),
          [Emit.mqtt_status true none]⟩ ∧
      ∀ t ∈ default_topics, BrokerOp.sub t 0 ∈ (s._on_connect rc).broker_ops) ∧
    (rc ≠ 0 →
      (s._on_connect rc).state.is_connected = false ∧
      (s._on_connect rc).broker_ops = [] ∧
      (s._on_connect rc).emits =
        [Emit.mqtt_status false (some ("Connection failed: " ++ toString rc))]) := by
  constructor
  · intro h0
    subst h0
    refine ⟨by simp [MQTTClient._on_connect, hrelay], ?_⟩
    intro t ht
    simp [MQTTClient._on_connect]
    exact ht
  · intro hne
    simp [MQTTClient._on_connect, hne, hrelay]

/-- C9 witness: a disconnected client with a relay, on `rc = 0`,
becomes connected, subscribes the four default topics and emits
`mqtt_status {connected: true}`; on `rc = 5` it stays disconnected and
emits the failure status. -/
theorem C9_on_connect_behaviour_witness :
    MQTTClient.has_relay ⟨true, true, false⟩ = true ∧
    MQTTClient._on_connect ⟨true, true, false⟩ 0 =
      ⟨⟨true, true, true⟩, default_topics.map (fun t => BrokerOp.sub t 0),
        [Emit.mqtt_status true none]⟩ ∧
    (MQTTClient._on_connect ⟨true, true, false⟩ 5).state.is_connected = false ∧
    (MQTTClient._on_connect ⟨true, true, false⟩ 5).emits =
      [Emit.mqtt_status false (some ("Connection failed: " ++ toString 5))] := by
  have h0 := (C9_on_connect_behaviour ⟨true, true, false⟩ 0 rfl).1 rfl
  have h5 := (C9_on_connect_behaviour ⟨true, true, false⟩ 5 rfl).2 (by decide)
  exact ⟨rfl, h0.1, h5.1, h5.2.2⟩

/-- C10: with `API_URL` unset, the fetch returns `None` whatever the
transport would have answered, so a read whose memory entry is invalid
follows the fetch-failure path: it returns the disk snapshot's records
installed with the degraded TTL when the snapshot is non-empty, and the
empty list otherwise — never an error (the read is total). -/
theorem C10_unset_api_url_follows_failure_path (now : Nat) (c : Cache) (http : HttpResult)
    (disk : DiskState) (w : Bool) (hmem : mem_cache_valid now c = false) :
    fetch_nodes_from_api none http = none ∧
    (load_cache disk ≠ [] →
      (get_nodes now c none http disk w).ret = load_cache disk ∧
      (get_nodes now c none http disk w).cache.expires_at =
        some (now + DEGRADED_TTL_MINUTES)) ∧
    (load_cache disk = [] → (get_nodes now c none http disk w).ret = []) := by
  have hfetch : fetch_nodes_from_api none http = none := by
    simp [fetch_nodes_from_api, py_truthy]
  refine ⟨hfetch, ?_, ?_⟩
  · intro hd
    rw [get_nodes_degraded now c none http disk w hmem (Or.inl hfetch) hd]
    exact ⟨rfl, rfl⟩
  · intro hd
    rw [get_nodes_nothing now c none http disk w hmem (Or.inl hfetch) hd]

/-- C10 witness: with `API_URL` unset and (even) a well-formed 200
response available, the fetch is `None`; over a one-record snapshot the
read at time 0 returns the record with expiry 1, and over an absent
snapshot it returns `[]`. -/
theorem C10_unset_api_url_follows_failure_path_witness :
    mem_cache_valid 0 Cache.initial = false ∧
    fetch_nodes_from_api none
      (HttpResult.resp 200 "x" (some ⟨false, some [goodApiNode]⟩)) = none ∧
    (get_nodes 0 Cache.initial none
        (HttpResult.resp 200 "x" (some ⟨false, some [goodApiNode]⟩))
        (DiskState.file (some [sampleNode])) true).ret =
      load_cache (DiskState.file (some [sampleNode])) ∧
    (get_nodes 0 Cache.initial none
        (HttpResult.resp 200 "x" (some ⟨false, some [goodApiNode]⟩))
        DiskState.absent true).ret = [] := by
  have h1 := C10_unset_api_url_follows_failure_path 0 Cache.initial
    (HttpResult.resp 200 "x" (some ⟨false, some [goodApiNode]⟩))
    (DiskState.file (some [sampleNode])) true rfl
  have h2 := C10_unset_api_url_follows_failure_path 0 Cache.initial
    (HttpResult.resp 200 "x" (some ⟨false, some [goodApiNode]⟩))
    DiskState.absent true rfl
  exact ⟨rfl, h1.1, (h1.2.1 (by decide)).1, h2.2.2 rfl⟩

end IpnetWebsite
